import Mathlib

/-!
A verification development for the OCI ("host") build backend of
kn-plugin-func: a shallow embedding of `pkg/oci/builder.go`,
`pkg/oci/containerize.go` and the Pusher, together with theorems settling
the specification claims about them.

Modelling conventions:
* The on-disk state under `<root>/.func/builds` is a record `FS`:
  the `by-pid` symlinks (name and target), the `by-hash` directories and
  the `last` symlink.  All link targets are identified by the hash-named
  directory they point at (in the code they are relative or absolute
  paths which resolve to `by-hash/<hash>`).
* Process liveness (`processExists`, a probe via signal 0) is an oracle
  `String → Bool` passed to each operation; the name of a pid entry fully
  determines its liveness, as in the code where liveness is a function of
  the pid string alone.
* `filepath.EvalSymlinks` fails on a path that does not exist, making
  `isLinkTo` false; this is modelled by the existence (`contains`)
  checks inside `isLinkTo`.
* Fallible collaborators invoked by `Build` (the embedded repository
  load, `scaffolding.Write`, `containerize`, the final `os.Symlink` of
  `updateLastLink`) are modelled by boolean outcome fields in
  `BuildSteps`; context cancellation surfaces as a failing outcome of
  the step in flight, exactly as a cancelled `ctx` does in the code.
-/

deriving instance DecidableEq for Except

namespace KnFunc

/-- `DefaultIgnored` from builder.go: names excluded from the data layer. -/
def DefaultIgnored : List String := [".git", ".func", ".funcignore", ".gitignore"]

/-- v1.Platform: (OS, architecture, optional variant). -/
structure Platform where
  os : String
  architecture : String
  variant : String
deriving DecidableEq

/-- `DefaultPlatforms` from builder.go (the arm variants are commented out
in the source). -/
def DefaultPlatforms : List Platform :=
  [⟨"linux", "amd64", ""⟩, ⟨"linux", "arm64", ""⟩,
   ⟨"darwin", "amd64", ""⟩, ⟨"darwin", "arm64", ""⟩]

/-- One entry of the function's source tree, in the order `filepath.Walk`
visits it (lexical); `parts` is the path relative to the function root,
split into components. -/
structure FileEntry where
  parts : List String
  isDir : Bool
  content : String
deriving DecidableEq

/-- fn.Function as consumed by the oci package: root, runtime, invocation
style, image name, declared build/run envs, run volumes (the Path member
is a pointer in the source, hence `Option`), the source tree, and the
result of the external `Fingerprint` operation. -/
structure Function where
  Root : String
  Runtime : String
  Invoke : String
  Image : String
  BuildEnvs : List (String × String)
  RunEnvs : List (String × String)
  RunVolumes : List (Option String)
  Files : List FileEntry
  FingerprintResult : Except String String
deriving DecidableEq

/-- buildConfig from builder.go: function, build timestamp (`time.Now()` at
the start of `Build`, passed in here because it is an effect) and the
verbose flag.  The `h` cache field is subsumed by the pure accessor. -/
structure buildConfig where
  f : Function
  t : Nat
  verbose : Bool
deriving DecidableEq

/-- `buildConfig.hash`: returns the fingerprint; on a fingerprint error the
code prints to stderr and returns the empty (cached) string — the error is
not propagated. -/
def buildConfig.hash (c : buildConfig) : String :=
  match c.f.FingerprintResult with
  | .ok h => h
  | .error _ => ""

/-- fn.RunDataDir. -/
def RunDataDir : String := ".func"

/-- `buildConfig.buildDir`: `<root>/.func/builds/by-hash/<hash>`. -/
def buildConfig.buildDir (c : buildConfig) : String :=
  c.f.Root ++ "/" ++ RunDataDir ++ "/builds/by-hash/" ++ c.hash

/-- The bookkeeping state under `<root>/.func/builds`. -/
structure FS where
  /-- entries of `builds/by-pid`: symlink name (a pid string) and target
  (the hash directory it points at). -/
  pids : List (String × String)
  /-- entries of `builds/by-hash` (hash-named build directories). -/
  dirs : List String
  /-- target of the `builds/last` symlink, `none` if absent. -/
  last : Option String
deriving DecidableEq

/-- `isLinkTo`: both the link target and the compared directory are
resolved with `EvalSymlinks` (which fails if the path does not exist,
hence the existence checks) and compared. -/
def isLinkTo (dirs : List String) (target d : String) : Bool :=
  dirs.contains target && dirs.contains d && target == d

/-- `isActive`: some `by-pid` entry names a live process and links to `d`. -/
def isActive (processExists : String → Bool) (pids : List (String × String))
    (dirs : List String) (d : String) : Bool :=
  pids.any fun p => processExists p.1 && isLinkTo dirs p.2 d

/-- The two ways `setup` fails: `BuildErr` (build already in progress), or
the raw `os.Symlink` "file exists" error when this process already has a
pid link (an *os.LinkError, not a BuildErr). -/
inductive SetupErr where
  | buildInProgress
  | linkExists
deriving DecidableEq

/-- `setup` from builder.go: error (mutating nothing) if the hash directory
is active; otherwise create the hash directory (idempotent `MkdirAll`) and
symlink `by-pid/<pid>` to it — `os.Symlink` fails if the name exists. -/
def setup (processExists : String → Bool) (pid h : String) (fs : FS) :
    Option SetupErr × FS :=
  if isActive processExists fs.pids fs.dirs h then
    (some .buildInProgress, fs)
  else
    let fs1 : FS := { fs with dirs := if fs.dirs.contains h then fs.dirs else fs.dirs ++ [h] }
    if fs1.pids.any (fun p => p.1 == pid) then
      (some .linkExists, fs1)
    else
      (none, { fs1 with pids := fs1.pids ++ [(pid, h)] })

/-- `os.RemoveAll` of a by-pid entry. -/
def removePid (n : String) (fs : FS) : FS :=
  { fs with pids := fs.pids.filter (fun p => p.1 != n) }

/-- `os.RemoveAll` of a by-hash directory. -/
def removeDir (d : String) (fs : FS) : FS :=
  { fs with dirs := fs.dirs.filter (fun x => x != d) }

/-- Second phase of `teardown`: the loop over the snapshot `l` of the
by-pid listing, removing entries whose process no longer exists. -/
def deadSweep (processExists : String → Bool) :
    List (String × String) → FS → FS
  | [], fs => fs
  | q :: l, fs =>
    deadSweep processExists l (if processExists q.1 then fs else removePid q.1 fs)

/-- `isLinkTo cfg.lastLink dir`: resolving the `last` link fails if it is
absent or dangling. -/
def isLastLinkTo (last : Option String) (dirs : List String) (d : String) : Bool :=
  match last with
  | none => false
  | some target => isLinkTo dirs target d

/-- Third phase of `teardown`: the loop over the snapshot `l` of the
by-hash listing, removing directories that are neither the `last` target
nor active (`isActive` re-reads the then-current pid listing, and
`isLinkTo` resolves against the then-current state, on each iteration). -/
def dirSweep (processExists : String → Bool) : List String → FS → FS
  | [], fs => fs
  | d :: l, fs =>
    dirSweep processExists l
      (if isLastLinkTo fs.last fs.dirs d then fs
       else if isActive processExists fs.pids fs.dirs d then fs
       else removeDir d fs)

/-- `teardown` from builder.go: remove this process's pid link, sweep pid
links of dead processes, then sweep unreferenced build directories. -/
def teardown (processExists : String → Bool) (pid : String) (fs : FS) : FS :=
  let fs1 := removePid pid fs
  let fs2 := deadSweep processExists fs1.pids fs1
  dirSweep processExists fs2.dirs fs2

/-- `updateLastLink`: `os.RemoveAll` the `last` link, then `os.Symlink` it
at the build directory; the symlink call itself can fail (`linkOk = false`),
in which case the previously removed link is simply gone. -/
def updateLastLink (linkOk : Bool) (h : String) (fs : FS) : Option Unit × FS :=
  let fs1 : FS := { fs with last := none }
  if linkOk then (none, { fs1 with last := some h }) else (some (), fs1)

/-- Result of one `Build` call, by exit path. -/
inductive BuildResult where
  /-- returned nil: scaffold + containerize + last-link all succeeded. -/
  | ok
  /-- `BuildErr` from `setup`: build already in progress. -/
  | inProgress
  /-- raw symlink "file exists" error from `setup`. -/
  | linkExists
  /-- error from `fn.NewRepository`. -/
  | repoErr
  /-- error from `scaffolding.Write`. -/
  | scaffoldErr
  /-- error from `containerize`. -/
  | containerizeErr
  /-- error from the `os.Symlink` inside `updateLastLink`. -/
  | lastLinkErr
deriving DecidableEq

/-- Outcomes of the fallible collaborators `Build` invokes, in order. -/
structure BuildSteps where
  repoOk : Bool
  scaffoldOk : Bool
  containerizeOk : Bool
  lastLinkOk : Bool
deriving DecidableEq

/-- The body of `Build` between a successful `setup` and the deferred
`teardown`: repository load, scaffolding, containerize, last-link update. -/
def buildBody (h : String) (steps : BuildSteps) (fs1 : FS) : BuildResult × FS :=
  if steps.repoOk = false then (.repoErr, fs1)
  else if steps.scaffoldOk = false then (.scaffoldErr, fs1)
  else if steps.containerizeOk = false then (.containerizeErr, fs1)
  else
    match updateLastLink steps.lastLinkOk h fs1 with
    | (none, fs2) => (.ok, fs2)
    | (some _, fs2) => (.lastLinkErr, fs2)

/-- `Builder.Build` from builder.go: `setup` (returning immediately on its
error — the deferred `teardown` is registered only after `setup`
succeeds), then the body, then `teardown` unconditionally; `teardown`'s
own return value is discarded by `defer`. -/
def Build (processExists : String → Bool) (pid : String) (c : buildConfig)
    (steps : BuildSteps) (fs : FS) : BuildResult × FS :=
  match setup processExists pid c.hash fs with
  | (some .buildInProgress, fs1) => (.inProgress, fs1)
  | (some .linkExists, fs1) => (.linkExists, fs1)
  | (none, fs1) =>
    let r := buildBody c.hash steps fs1
    (r.1, teardown processExists pid r.2)

/-! ### Containerizer (containerize.go)

Blob content is modelled as `String`; SHA-256 digests are modelled by a
collision-free stand-in (a tag around the exact content), so digest
equality coincides with content equality, which is the defining property
the code relies on.  JSON serialization (`json.Encoder` with a fixed
indent, which emits struct fields in declaration order and map keys
sorted) is modelled by an injective rendering of the same fields in the
same order. -/

/-- SHA-256 of a blob, modelled by its tagged content. -/
def digestOf (b : String) : String := "sha256(" ++ b ++ ")"

/-- v1.Layer: a gzip-compressed tar stream; the code derives the
compressed digest, the uncompressed digest (diffID) and the size from it
via `tarball.LayerFromFile`. -/
structure Layer where
  compressed : String
  uncompressed : String
deriving DecidableEq

/-- `layer.Digest()`: digest of the compressed stream. -/
def Layer.Digest (l : Layer) : String := digestOf l.compressed

/-- `layer.DiffID()`: digest of the uncompressed content. -/
def Layer.DiffID (l : Layer) : String := digestOf l.uncompressed

/-- `layer.Size()`: size of the compressed stream. -/
def Layer.Size (l : Layer) : Nat := l.compressed.length

def OCILayer : String := "application/vnd.oci.image.layer.v1.tar+gzip"
def OCIConfigJSON : String := "application/vnd.oci.image.config.v1+json"
def OCIManifestSchema1 : String := "application/vnd.oci.image.manifest.v1+json"
def OCIImageIndex : String := "application/vnd.oci.image.index.v1+json"

/-- v1.Descriptor: media type, digest, size, optional platform tag. -/
structure Descriptor where
  MediaType : String
  Digest : String
  Size : Nat
  platform : Option Platform
deriving DecidableEq

/-- One tar header; every header's ModTime is pegged to the build
timestamp `t`. -/
def tarHeader (name : String) (t : Nat) : String :=
  "hdr(" ++ name ++ "," ++ toString t ++ ");"

/-- `isIgnored`: the entry's base name is in `DefaultIgnored`. -/
def isIgnored (name : String) : Bool := DefaultIgnored.contains name

/-- `filepath.Walk` with `SkipDir` on ignored directories: an entry is
included iff none of its path components is ignored (its own base name,
or any ancestor directory). -/
def includedFiles (files : List FileEntry) : List FileEntry :=
  files.filter fun e => !(e.parts.any isIgnored)

/-- One walked entry written to the tar stream: header named under
`/func`, ModTime = build timestamp, file content for non-directories. -/
def tarEntry (t : Nat) (e : FileEntry) : String :=
  tarHeader ("/func/" ++ String.intercalate ("/") e.parts) t ++
    (if e.isDir then "" else "data(" ++ e.content ++ ");")

/-- The data-layer tar stream: the `/func` directory header followed by
every non-ignored entry in walk order. -/
def tarData (t : Nat) (files : List FileEntry) : String :=
  tarHeader ("/func") t ++ String.join ((includedFiles files).map (tarEntry t))

/-- gzip compression (used with its default, timestamp-free header, so it
is a deterministic function of its input). -/
def gzipC (s : String) : String := "gzip(" ++ s ++ ")"

/-- `newData`: the shared data layer and its OCI-layer descriptor. -/
def newData (c : buildConfig) : Descriptor × Layer :=
  let u := tarData c.t c.f.Files
  let layer : Layer := ⟨gzipC u, u⟩
  (⟨OCILayer, layer.Digest, layer.Size, none⟩, layer)

/-- Modelled from the spec: the compilation step of the Go language layer
builder (`goLayerBuilder`, whose source file is not among the provided
sources).  Per spec §4.3 it cross-compiles the function's own source with
the native toolchain for the requested OS/architecture/variant (the
variant selecting architecture-specific flags), with the declared
build-time envs appended to the compiler environment, yielding a single
statically-linked binary. -/
def goCompile (f : Function) (p : Platform) : String :=
  "bin(" ++ p.os ++ "," ++ p.architecture ++ "," ++ p.variant ++ ";env=" ++
    String.intercalate (",") (f.BuildEnvs.map (fun e => e.1 ++ "=" ++ e.2)) ++
    ";src=" ++
    String.join (f.Files.map (fun e => String.intercalate ("/") e.parts ++ "=" ++ e.content ++ ";")) ++
    ")"

/-- Modelled from the spec: `goLayerBuilder.Build` — the compiled binary
at the fixed in-image path `/func/f`, tarred and gzipped, with its OCI
layer descriptor. -/
def goLayerBuilderBuild (c : buildConfig) (p : Platform) : Descriptor × Layer :=
  let u := tarHeader ("/func/f") c.t ++ "data(" ++ goCompile c.f p ++ ");"
  let layer : Layer := ⟨gzipC u, u⟩
  (⟨OCILayer, layer.Digest, layer.Size, none⟩, layer)

/-- The languageLayerBuilder interface; only the Go implementation
exists. -/
inductive languageLayerBuilder where
  | goBuilder
deriving DecidableEq

/-- `languageLayerBuilder.Build` dispatch. -/
def languageLayerBuilder.Build :
    languageLayerBuilder → buildConfig → Platform → Descriptor × Layer
  | .goBuilder, c, p => goLayerBuilderBuild c p

def pythonMsg : String := "Python functions are not yet supported by the host builder."
def nodeMsg : String := "Node functions are not yet supported by the host builder."
def rustMsg : String := "Rust functions are not yet supported by the host builder."

/-- The default-branch message; the source additionally quotes the runtime
name. -/
def unrecognizedMsg (rt : String) : String :=
  "The language runtime " ++ rt ++ " is not a recognized language by the host builder."

/-- `newLanguageLayerBuilder`: the switch on `cfg.f.Runtime`. -/
def newLanguageLayerBuilder (c : buildConfig) : Except String languageLayerBuilder :=
  if c.f.Runtime == "go" then .ok .goBuilder
  else if c.f.Runtime == "python" then .error pythonMsg
  else if c.f.Runtime == "node" then .error nodeMsg
  else if c.f.Runtime == "rust" then .error rustMsg
  else .error (unrecognizedMsg c.f.Runtime)

/-- v1.Config, the runtime-config section of the image config. -/
structure ConfigInner where
  ExposedPorts : List String
  Env : List String
  Cmd : List String
  WorkingDir : String
  StopSignal : String
  /-- the key set of the Go `map[string]struct\x7b\x7d`, listed in the
  sorted order `encoding/json` emits map keys. -/
  Volumes : List String
deriving DecidableEq

/-- v1.ConfigFile. -/
structure ConfigFile where
  Created : Nat
  Architecture : String
  OS : String
  Variant : String
  Config : ConfigInner
  /-- `RootFS.DiffIDs` (`RootFS.Type` is the constant "layers"). -/
  DiffIDs : List String
deriving DecidableEq

/-- Modelled from the spec/usage: `Envs.Slice` (the `Envs` type lives
outside the provided sources) renders each declared env as NAME=VALUE; it
is a pure function of the declared envs alone. -/
def envSlice (envs : List (String × String)) : List String :=
  envs.map fun e => e.1 ++ "=" ++ e.2

/-- The `volumes` map built at the top of `newConfig`: one key per
declared volume whose Path is non-nil, deduplicated (map semantics), in
sorted key order. -/
def volumePaths (vs : List (Option String)) : List String :=
  (vs.filterMap id).toFinset.sort (· ≤ ·)

def renderList (l : List String) : String :=
  "[" ++ String.intercalate (",") l ++ "]"

/-- The JSON bytes of the config file. -/
def configBytes (cf : ConfigFile) : String :=
  "cfg(created=" ++ toString cf.Created ++ ";arch=" ++ cf.Architecture ++
    ";os=" ++ cf.OS ++ ";variant=" ++ cf.Variant ++
    ";ports=" ++ renderList cf.Config.ExposedPorts ++
    ";env=" ++ renderList cf.Config.Env ++
    ";cmd=" ++ renderList cf.Config.Cmd ++
    ";wd=" ++ cf.Config.WorkingDir ++
    ";stop=" ++ cf.Config.StopSignal ++
    ";volumes=" ++ renderList cf.Config.Volumes ++
    ";rootfs=layers:" ++ renderList cf.DiffIDs ++ ")"

/-- `newConfig`: assemble the platform config (fixed port, envs from
`f.Run.Envs.Slice()`, fixed Cmd/WorkingDir/StopSignal, volumes from
`f.Run.Volumes`, diffIDs of the given layers in order), serialize, hash,
and return its descriptor together with the config value. -/
def newConfig (c : buildConfig) (p : Platform) (layers : List Layer) :
    Descriptor × ConfigFile :=
  let cf : ConfigFile := {
    Created := c.t
    Architecture := p.architecture
    OS := p.os
    Variant := p.variant
    Config := {
      ExposedPorts := ["8080/tcp"]
      Env := envSlice c.f.RunEnvs
      Cmd := ["/func/f"]
      WorkingDir := "/func/"
      StopSignal := "SIGKILL"
      Volumes := volumePaths c.f.RunVolumes }
    DiffIDs := layers.map Layer.DiffID }
  let bytes := configBytes cf
  (⟨OCIConfigJSON, digestOf bytes, bytes.length, none⟩, cf)

/-- v1.Manifest. -/
structure Manifest where
  SchemaVersion : Nat
  MediaType : String
  Config : Descriptor
  Layers : List Descriptor
deriving DecidableEq

/-- The JSON bytes of one descriptor. -/
def descBytes (d : Descriptor) : String :=
  "desc(" ++ d.MediaType ++ "," ++ d.Digest ++ "," ++ toString d.Size ++
    (match d.platform with
     | none => ""
     | some p => ",platform=" ++ p.os ++ "/" ++ p.architecture ++ "/" ++ p.variant) ++
    ")"

/-- The JSON bytes of a manifest. -/
def manifestBytes (m : Manifest) : String :=
  "manifest(" ++ toString m.SchemaVersion ++ "," ++ m.MediaType ++
    ";config=" ++ descBytes m.Config ++
    ";layers=" ++ renderList (m.Layers.map descBytes) ++ ")"

/-- `newImage`: resolve the language layer builder, build the exec layer,
the config and the manifest for one platform; returns the platform-tagged
manifest descriptor and, in the model, the manifest and config values the
code writes out as blobs. -/
def newImage (c : buildConfig) (dataDesc : Descriptor) (dataLayer : Layer)
    (p : Platform) : Except String (Descriptor × Manifest × ConfigFile) :=
  match newLanguageLayerBuilder c with
  | .error e => .error e
  | .ok b =>
    let ed := b.Build c p
    let cd := newConfig c p [dataLayer, ed.2]
    let m : Manifest := ⟨2, OCIManifestSchema1, cd.1, [dataDesc, ed.1]⟩
    let bytes := manifestBytes m
    .ok (⟨OCIManifestSchema1, digestOf bytes, bytes.length, some p⟩, m, cd.2)

/-- v1.IndexManifest. -/
structure IndexManifest where
  SchemaVersion : Nat
  MediaType : String
  Manifests : List Descriptor
deriving DecidableEq

/-- The JSON bytes of the image index (what `newImageIndex` writes to
`index.json`). -/
def indexJsonBytes (i : IndexManifest) : String :=
  "index(" ++ toString i.SchemaVersion ++ "," ++ i.MediaType ++
    ";manifests=" ++ renderList (i.Manifests.map descBytes) ++ ")"

/-- `newImageIndex`: the index value and the bytes written to
`index.json`. -/
def newImageIndex (descs : List Descriptor) : IndexManifest × String :=
  let i : IndexManifest := ⟨2, OCIImageIndex, descs⟩
  (i, indexJsonBytes i)

/-- The per-platform loop of `containerize`, aborting on the first
error (so no partial index is ever produced). -/
def imageLoop (c : buildConfig) (dataDesc : Descriptor) (dataLayer : Layer) :
    List Platform → Except String (List Descriptor)
  | [] => .ok []
  | p :: ps =>
    match newImage c dataDesc dataLayer p with
    | .error e => .error e
    | .ok r =>
      match imageLoop c dataDesc dataLayer ps with
      | .error e => .error e
      | .ok ds => .ok (r.1 :: ds)

/-- The bytes of the static `oci-layout` marker file. -/
def ociLayoutBytes : String := "\x7b \"imageLayoutVersion\": \"1.0.0\" \x7d"

/-- `containerize`: layout marker, shared data layer, one image per
default platform, then the image index. -/
def containerize (c : buildConfig) : Except String (IndexManifest × String) :=
  let dd := newData c
  match imageLoop c dd.1 dd.2 DefaultPlatforms with
  | .error e => .error e
  | .ok descs => .ok (newImageIndex descs)

/-! ### Pusher (Pusher.Push and getLastBuildDir) -/

/-- The failure modes of `Push`, one per fallible step, so that the
"no prior build" error is distinguishable from transport errors. -/
inductive PushErr where
  /-- `name.ParseReference(f.Image)` failed. -/
  | badRef
  /-- `getLastBuildDir`: no last build; carries the path named by the
  message "last build directory not found ... Has it been built?". -/
  | noLastBuild (dir : String)
  /-- `layout.ImageIndexFromPath` failed. -/
  | layoutErr
  /-- `remote.WriteIndex` failed (registry transport). -/
  | transport
deriving DecidableEq

/-- Outcomes of the external steps `Push` invokes, plus the digest the
written index reports. -/
structure PushSteps where
  refOk : Bool
  layoutOk : Bool
  remoteOk : Bool
  indexDigest : String
deriving DecidableEq

/-- Whether `os.Stat` of `builds/last` succeeds: the symlink exists and
resolves to an existing build directory. -/
def lastBuildExists (fs : FS) : Bool :=
  match fs.last with
  | none => false
  | some h => fs.dirs.contains h

/-- `getLastBuildDir`: the fixed `builds/last` path, or a descriptive
error naming it. -/
def getLastBuildDir (f : Function) (fs : FS) : Except PushErr String :=
  let dir := f.Root ++ "/" ++ RunDataDir ++ "/builds/last"
  if lastBuildExists fs then .ok dir else .error (.noLastBuild dir)

/-- `Pusher.Push`: parse the image reference, locate the last build, open
it as an image index, write it to the registry, return the index digest.
The local state `fs` is threaded through unchanged: every step only reads
the layout (the progress reporting goroutine writes no local state). -/
def Push (f : Function) (fs : FS) (io : PushSteps) :
    (Except PushErr String) × FS :=
  if io.refOk = false then (.error .badRef, fs)
  else
    match getLastBuildDir f fs with
    | .error e => (.error e, fs)
    | .ok _ =>
      if io.layoutOk = false then (.error .layoutErr, fs)
      else if io.remoteOk = false then (.error .transport, fs)
      else (.ok io.indexDigest, fs)

/-! ### Concrete fixtures used by witnesses and counterexamples -/

/-- A minimal Go function fixture. -/
def f0 : Function :=
  { Root := "/r", Runtime := "go", Invoke := "http",
    Image := "example.com/ns/f", BuildEnvs := [], RunEnvs := [],
    RunVolumes := [], Files := [], FingerprintResult := .ok ("abc") }

/-- All collaborator steps succeed. -/
def stepsAllOk : BuildSteps := ⟨true, true, true, true⟩

/-! ### C7 — language layer builder dispatch -/

/-- C7: `newLanguageLayerBuilder` returns a builder exactly when the
runtime is "go"; python, node and rust each yield a distinctly-worded
not-yet-supported error; every other runtime yields the
not-a-recognized-language error; it never silently no-ops. -/
theorem C7_language_dispatch (c : buildConfig) :
    ((∃ b, newLanguageLayerBuilder c = .ok b) ↔ c.f.Runtime = "go") ∧
    (c.f.Runtime = "python" → newLanguageLayerBuilder c = .error pythonMsg) ∧
    (c.f.Runtime = "node" → newLanguageLayerBuilder c = .error nodeMsg) ∧
    (c.f.Runtime = "rust" → newLanguageLayerBuilder c = .error rustMsg) ∧
    (c.f.Runtime ∉ (["go", "python", "node", "rust"] : List String) →
      newLanguageLayerBuilder c = .error (unrecognizedMsg c.f.Runtime)) ∧
    pythonMsg ≠ nodeMsg ∧ pythonMsg ≠ rustMsg ∧ nodeMsg ≠ rustMsg := by
  refine ⟨?_, ?_, ?_, ?_, ?_, by decide, by decide, by decide⟩ <;>
    unfold newLanguageLayerBuilder
  · constructor
    · rintro ⟨b, hb⟩
      by_cases hgo : c.f.Runtime = "go"
      · exact hgo
      · exfalso
        by_cases hpy : c.f.Runtime = "python" <;>
        by_cases hnd : c.f.Runtime = "node" <;>
        by_cases hrs : c.f.Runtime = "rust" <;>
        simp [hgo, hpy, hnd, hrs] at hb
    · intro hgo
      exact ⟨.goBuilder, by simp [hgo]⟩
  · intro h
    simp [h]
  · intro h
    simp [h]
  · intro h
    simp [h]
  · intro h
    simp only [List.mem_cons, List.not_mem_nil, or_false, not_or] at h
    obtain ⟨h1, h2, h3, h4⟩ := h
    simp [h1, h2, h3, h4]

/-- C7 witness: the dispatch at the concrete runtimes "go" and "python". -/
theorem C7_witness :
    newLanguageLayerBuilder ⟨{ f0 with Runtime := "python" }, 0, false⟩ =
      .error pythonMsg :=
  (C7_language_dispatch ⟨{ f0 with Runtime := "python" }, 0, false⟩).2.1 rfl

/-! ### C4 — image config fields -/

/-- C4 (amended): for every produced platform config, `newConfig` declares
exactly one exposed TCP port "8080/tcp", Cmd ["/func/f"], WorkingDir
"/func/", StopSignal "SIGKILL", Volumes exactly the set of the declared
volumes' non-nil paths, and Env exactly the function's declared *runtime*
environment variables (`f.Run.Envs.Slice()`) — no implicit
creation-timestamp variable is added to Env; the creation timestamp is
recorded in the config's Created field instead. -/
theorem C4_config_fields (c : buildConfig) (p : Platform) (layers : List Layer) :
    (newConfig c p layers).2.Config.ExposedPorts = ["8080/tcp"] ∧
    (newConfig c p layers).2.Config.Cmd = ["/func/f"] ∧
    (newConfig c p layers).2.Config.WorkingDir = "/func/" ∧
    (newConfig c p layers).2.Config.StopSignal = "SIGKILL" ∧
    (∀ pth, pth ∈ (newConfig c p layers).2.Config.Volumes ↔
      some pth ∈ c.f.RunVolumes) ∧
    (newConfig c p layers).2.Config.Env = envSlice c.f.RunEnvs ∧
    (newConfig c p layers).2.Created = c.t := by
  refine ⟨rfl, rfl, rfl, rfl, ?_, rfl, rfl⟩
  intro pth
  show pth ∈ volumePaths c.f.RunVolumes ↔ some pth ∈ c.f.RunVolumes
  unfold volumePaths
  rw [Finset.mem_sort, List.mem_toFinset, List.mem_filterMap]
  constructor
  · rintro ⟨a, ha, rfl⟩
    exact ha
  · intro h
    exact ⟨some pth, h, rfl⟩

/-- C4 witness: the fixed fields at a concrete config and platform, and
the Volumes membership at a concrete path. -/
theorem C4_witness :
    (newConfig ⟨f0, 3, false⟩ ⟨"linux", "arm64", ""⟩ []).2.Config.StopSignal =
      "SIGKILL" ∧
    ((("/data") ∈ (newConfig ⟨f0, 3, false⟩ ⟨"linux", "arm64", ""⟩ []).2.Config.Volumes) ↔
      some ("/data") ∈ f0.RunVolumes) :=
  ⟨(C4_config_fields ⟨f0, 3, false⟩ ⟨"linux", "arm64", ""⟩ []).2.2.2.1,
   (C4_config_fields ⟨f0, 3, false⟩ ⟨"linux", "arm64", ""⟩ []).2.2.2.2.1 ("/data")⟩

/-- The fixture refuting C4's Env clause: one declared build env and one
declared run env. -/
def fC4 : Function :=
  { f0 with BuildEnvs := [("B", "1")], RunEnvs := [("R", "1")],
            FingerprintResult := .ok ("h4") }

/-- C4 counterexample: the config's Env is exactly ["R=1"] — the declared
*run* envs — which cannot equal the declared build-time envs (["B=1"])
plus one implicit timestamp variable: that list would have length 2. -/
theorem C4_counterexample :
    (newConfig ⟨fC4, 5, false⟩ ⟨"linux", "amd64", ""⟩ []).2.Config.Env = ["R=1"] ∧
    ((newConfig ⟨fC4, 5, false⟩ ⟨"linux", "amd64", ""⟩ []).2.Config.Env).length ≠
      (envSlice fC4.BuildEnvs).length + 1 := by
  exact ⟨rfl, by decide⟩

/-! ### C6 — manifest and config layer structure -/

/-- C6: for a supported runtime, each per-platform manifest references the
single config descriptor and exactly the ordered pair of layer
descriptors [data, exec], and the config's rootfs diffIDs are the
uncompressed-content digests of the same two layers in the same order. -/
theorem C6_manifest_structure (c : buildConfig) (p : Platform)
    (dataDesc : Descriptor) (dataLayer : Layer) (h : c.f.Runtime = "go") :
    ∃ d m cf, newImage c dataDesc dataLayer p = .ok (d, m, cf) ∧
      m.Config = (newConfig c p [dataLayer, (goLayerBuilderBuild c p).2]).1 ∧
      m.Layers = [dataDesc, (goLayerBuilderBuild c p).1] ∧
      cf.DiffIDs = [digestOf dataLayer.uncompressed,
        digestOf (goLayerBuilderBuild c p).2.uncompressed] := by
  have hb : newLanguageLayerBuilder c = .ok .goBuilder := by
    unfold newLanguageLayerBuilder
    simp [h]
  unfold newImage
  rw [hb]
  exact ⟨_, _, _, rfl, rfl, rfl, rfl⟩

/-- C6 witness: the structure at a concrete config, platform and data
layer. -/
theorem C6_witness :
    ∃ d m cf,
      newImage ⟨f0, 0, false⟩ ⟨OCILayer, "dd", 1, none⟩ ⟨"gz", "tar"⟩
          ⟨"linux", "amd64", ""⟩ = .ok (d, m, cf) ∧
      m.Config = (newConfig ⟨f0, 0, false⟩ ⟨"linux", "amd64", ""⟩
        [⟨"gz", "tar"⟩,
         (goLayerBuilderBuild ⟨f0, 0, false⟩ ⟨"linux", "amd64", ""⟩).2]).1 ∧
      m.Layers = [⟨OCILayer, "dd", 1, none⟩,
        (goLayerBuilderBuild ⟨f0, 0, false⟩ ⟨"linux", "amd64", ""⟩).1] ∧
      cf.DiffIDs = [digestOf "tar",
        digestOf (goLayerBuilderBuild ⟨f0, 0, false⟩
          ⟨"linux", "amd64", ""⟩).2.uncompressed] :=
  C6_manifest_structure ⟨f0, 0, false⟩ ⟨"linux", "amd64", ""⟩
    ⟨OCILayer, "dd", 1, none⟩ ⟨"gz", "tar"⟩ rfl

/-! ### C8 — Push with no prior build, and Push as a pure reader -/

/-- C8: if the `builds/last` pointer does not resolve, `Push` returns an
error (never reaching the registry write, so it is not the transport
error, and `PushErr.noLastBuild` carries the offending path); and in all
cases `Push` leaves the local build state untouched. -/
theorem C8_push_no_last (f : Function) (fs : FS) (io : PushSteps)
    (h : lastBuildExists fs = false) :
    (∃ e, (Push f fs io).1 = .error e ∧ e ≠ PushErr.transport) ∧
    (∀ f2 fs2 io2, (Push f2 fs2 io2).2 = fs2) := by
  constructor
  · by_cases hr : io.refOk = false
    · refine ⟨.badRef, ?_, by simp⟩
      simp [Push, hr]
    · refine ⟨.noLastBuild (f.Root ++ "/" ++ RunDataDir ++ "/builds/last"), ?_, by simp⟩
      simp [Push, hr, getLastBuildDir, h]
  · intro f2 fs2 io2
    unfold Push getLastBuildDir
    split
    · rfl
    · split
      · rfl
      · split
        · rfl
        · split <;> rfl

/-- An FS with no `last` pointer, for the C8 witness. -/
def fsNoLast : FS := ⟨[], ["h1"], none⟩

/-- C8 witness: `Push` at a concrete function and state with no last
build leaves the state untouched (the error component is covered by the
theorem's first conjunct at the same input). -/
theorem C8_witness : (Push f0 fsNoLast ⟨true, true, true, "d"⟩).2 = fsNoLast :=
  (C8_push_no_last f0 fsNoLast ⟨true, true, true, "d"⟩ rfl).2 f0 fsNoLast
    ⟨true, true, true, "d"⟩

/-! ### Preservation lemmas for teardown's phases -/

/-- The dead-marker sweep never touches the by-hash directories. -/
theorem deadSweep_dirs (pe : String → Bool) :
    ∀ (l : List (String × String)) (fs : FS), (deadSweep pe l fs).dirs = fs.dirs
  | [], _ => rfl
  | q :: l, fs => by
    show (deadSweep pe l (if pe q.1 then fs else removePid q.1 fs)).dirs = fs.dirs
    rw [deadSweep_dirs pe l]
    by_cases h : pe q.1 <;> simp [h, removePid]

/-- The dead-marker sweep never touches the `last` link. -/
theorem deadSweep_last (pe : String → Bool) :
    ∀ (l : List (String × String)) (fs : FS), (deadSweep pe l fs).last = fs.last
  | [], _ => rfl
  | q :: l, fs => by
    show (deadSweep pe l (if pe q.1 then fs else removePid q.1 fs)).last = fs.last
    rw [deadSweep_last pe l]
    by_cases h : pe q.1 <;> simp [h, removePid]

/-- The directory sweep never touches the by-pid markers. -/
theorem dirSweep_pids (pe : String → Bool) :
    ∀ (l : List String) (fs : FS), (dirSweep pe l fs).pids = fs.pids
  | [], _ => rfl
  | d :: l, fs => by
    show (dirSweep pe l
      (if isLastLinkTo fs.last fs.dirs d then fs
       else if isActive pe fs.pids fs.dirs d then fs
       else removeDir d fs)).pids = fs.pids
    rw [dirSweep_pids pe l]
    by_cases h1 : isLastLinkTo fs.last fs.dirs d <;>
    by_cases h2 : isActive pe fs.pids fs.dirs d <;>
      simp [h1, h2, removeDir]

/-- The directory sweep never touches the `last` link. -/
theorem dirSweep_last (pe : String → Bool) :
    ∀ (l : List String) (fs : FS), (dirSweep pe l fs).last = fs.last
  | [], _ => rfl
  | d :: l, fs => by
    show (dirSweep pe l
      (if isLastLinkTo fs.last fs.dirs d then fs
       else if isActive pe fs.pids fs.dirs d then fs
       else removeDir d fs)).last = fs.last
    rw [dirSweep_last pe l]
    by_cases h1 : isLastLinkTo fs.last fs.dirs d <;>
    by_cases h2 : isActive pe fs.pids fs.dirs d <;>
      simp [h1, h2, removeDir]

/-- `teardown` never removes or retargets the `last` link itself. -/
theorem teardown_last (pe : String → Bool) (pid : String) (fs : FS) :
    (teardown pe pid fs).last = fs.last := by
  unfold teardown
  rw [dirSweep_last, deadSweep_last]
  rfl

/-! ### C10 — one marker per process; collision is a raw symlink error -/

/-- C10: if the current process already holds a pid marker (for any other
hash) and no live marker makes the requested hash active, `setup` fails
at the `os.Symlink` call with the raw "file exists" error — a different
error from the `BuildErr`-wrapped BuildInProgress — after having already
(idempotently) created the hash directory. -/
theorem C10_pid_collision (pe : String → Bool) (pid : String)
    (c : buildConfig) (steps : BuildSteps) (fs : FS) (t1 : String)
    (hmem : (pid, t1) ∈ fs.pids) (hneq : t1 ≠ c.hash)
    (hact : isActive pe fs.pids fs.dirs c.hash = false) :
    (setup pe pid c.hash fs).1 = some SetupErr.linkExists ∧
    SetupErr.linkExists ≠ SetupErr.buildInProgress ∧
    Build pe pid c steps fs =
      (BuildResult.linkExists,
        { fs with dirs := if fs.dirs.contains c.hash then fs.dirs
                          else fs.dirs ++ [c.hash] }) := by
  have hany : fs.pids.any (fun p => p.1 == pid) = true :=
    List.any_eq_true.mpr ⟨(pid, t1), hmem, by simp⟩
  have hsetup : setup pe pid c.hash fs =
      (some SetupErr.linkExists,
        { fs with dirs := if fs.dirs.contains c.hash then fs.dirs
                          else fs.dirs ++ [c.hash] }) := by
    unfold setup
    simp [hact, hany]
  refine ⟨by rw [hsetup], by simp, ?_⟩
  unfold Build
  rw [hsetup]

/-- Fixtures for the C10 witness: pid 5 is live and already holds the
marker for hash h1; the second build is for hash h2. -/
def peC10 : String → Bool := fun n => n == "5"

def fsC10 : FS := ⟨[("5", "h1")], ["h1"], none⟩

def cfgC10 : buildConfig := ⟨{ f0 with FingerprintResult := .ok ("h2") }, 0, false⟩

/-- C10 witness: the collision at the concrete state. -/
theorem C10_witness :
    (setup peC10 ("5") cfgC10.hash fsC10).1 = some SetupErr.linkExists ∧
    SetupErr.linkExists ≠ SetupErr.buildInProgress ∧
    Build peC10 ("5") cfgC10 stepsAllOk fsC10 =
      (BuildResult.linkExists,
        { fsC10 with dirs := if fsC10.dirs.contains cfgC10.hash then fsC10.dirs
                             else fsC10.dirs ++ [cfgC10.hash] }) :=
  C10_pid_collision peC10 ("5") cfgC10 stepsAllOk fsC10 ("h1")
    (by decide) (by decide) (by decide)

/-! ### C9 — error propagation through Build -/

/-- C9 (amended): after a successful setup, every failing collaborator
step's error is propagated as `Build`'s result (repository load,
scaffolding, containerize, last-link update), and with all steps
succeeding `Build` returns success; but a failure of the fingerprint
computation is *not* propagated — `buildConfig.hash` prints it to stderr
and yields the empty hash, so the build proceeds; teardown's own result
is discarded by `defer` and never alters the returned error. -/
theorem C9_error_propagation (pe : String → Bool) (pid : String)
    (c : buildConfig) (steps : BuildSteps) (fs fs1 : FS) (msg : String)
    (hsetup : setup pe pid c.hash fs = (none, fs1)) :
    (steps.repoOk = false → (Build pe pid c steps fs).1 = BuildResult.repoErr) ∧
    (steps.repoOk = true → steps.scaffoldOk = false →
      (Build pe pid c steps fs).1 = BuildResult.scaffoldErr) ∧
    (steps.repoOk = true → steps.scaffoldOk = true →
      steps.containerizeOk = false →
      (Build pe pid c steps fs).1 = BuildResult.containerizeErr) ∧
    (steps.repoOk = true → steps.scaffoldOk = true →
      steps.containerizeOk = true → steps.lastLinkOk = false →
      (Build pe pid c steps fs).1 = BuildResult.lastLinkErr) ∧
    (steps = stepsAllOk → (Build pe pid c steps fs).1 = BuildResult.ok) ∧
    (c.f.FingerprintResult = .error msg → c.hash = "") := by
  have hh : c.f.FingerprintResult = .error msg → c.hash = "" := by
    intro hf
    unfold buildConfig.hash
    rw [hf]
  unfold Build
  rw [hsetup]
  rcases steps with ⟨r, s, ct, lk⟩
  cases r <;> cases s <;> cases ct <;> cases lk <;>
    refine ⟨?_, ?_, ?_, ?_, ?_, hh⟩ <;>
    simp [buildBody, updateLastLink, stepsAllOk]

/-- C9 witness: at a concrete state where setup succeeds and every step
succeeds, Build returns ok. -/
theorem C9_witness :
    (Build (fun _ => false) ("5") ⟨f0, 0, false⟩ stepsAllOk ⟨[], [], none⟩).1 =
      BuildResult.ok :=
  (C9_error_propagation (fun _ => false) ("5") ⟨f0, 0, false⟩ stepsAllOk
      ⟨[], [], none⟩ ⟨[("5", "abc")], ["abc"], none⟩ ("m") (by decide)).2.2.2.2.1 rfl

/-- The fixture refuting C9 as stated: the fingerprint computation
fails. -/
def fC9 : Function := { f0 with FingerprintResult := .error ("boom") }

/-- C9 counterexample: with a failing fingerprint and every other step
succeeding, Build returns success — the fingerprint error was swallowed
(printed to stderr), not propagated to the caller. -/
theorem C9_counterexample :
    fC9.FingerprintResult = Except.error ("boom") ∧
    (Build (fun _ => false) ("5") ⟨fC9, 0, false⟩ stepsAllOk ⟨[], [], none⟩).1 =
      BuildResult.ok := by
  exact ⟨rfl, by decide⟩

/-! ### C3 — the last pointer is repointed only on success -/

/-- C3 (amended): the `last` pointer is left unchanged on every exit path
up to and including a containerize failure (and on both setup failures),
and is repointed at the current hash directory exactly on full success;
but if the final `os.Symlink` of `updateLastLink` itself fails, the old
pointer has already been removed by the preceding `os.RemoveAll` and
`last` is left absent (the non-atomic remove-then-recreate window). -/
theorem C3_last_update_discipline (pe : String → Bool) (pid : String)
    (c : buildConfig) (steps : BuildSteps) (fs : FS) :
    ((Build pe pid c steps fs).1 = BuildResult.inProgress →
      (Build pe pid c steps fs).2.last = fs.last) ∧
    ((Build pe pid c steps fs).1 = BuildResult.linkExists →
      (Build pe pid c steps fs).2.last = fs.last) ∧
    ((Build pe pid c steps fs).1 = BuildResult.repoErr →
      (Build pe pid c steps fs).2.last = fs.last) ∧
    ((Build pe pid c steps fs).1 = BuildResult.scaffoldErr →
      (Build pe pid c steps fs).2.last = fs.last) ∧
    ((Build pe pid c steps fs).1 = BuildResult.containerizeErr →
      (Build pe pid c steps fs).2.last = fs.last) ∧
    ((Build pe pid c steps fs).1 = BuildResult.ok →
      (Build pe pid c steps fs).2.last = some c.hash) ∧
    ((Build pe pid c steps fs).1 = BuildResult.lastLinkErr →
      (Build pe pid c steps fs).2.last = none) := by
  unfold Build setup
  by_cases hA : isActive pe fs.pids fs.dirs c.hash
  · simp [hA]
  · by_cases hP : fs.pids.any (fun p => p.1 == pid)
    · simp [hA, hP]
    · rcases steps with ⟨r, s, ct, lk⟩
      cases r <;> cases s <;> cases ct <;> cases lk <;>
        simp [hA, hP, buildBody, updateLastLink, teardown_last]

/-- C3 witness: a successful concrete build repoints `last` at the hash
directory. -/
theorem C3_witness :
    (Build (fun _ => false) ("5") ⟨f0, 0, false⟩ stepsAllOk
      ⟨[], [], some ("old")⟩).2.last = some (buildConfig.hash ⟨f0, 0, false⟩) :=
  (C3_last_update_discipline (fun _ => false) ("5") ⟨f0, 0, false⟩ stepsAllOk
      ⟨[], [], some ("old")⟩).2.2.2.2.2.1 (by decide)

/-- C3 counterexample fixtures: a state whose `last` points at "old", and
a run on which everything succeeds except the final symlink. -/
def fsC3 : FS := ⟨[], [], some ("old")⟩

def cfgC3 : buildConfig := ⟨{ f0 with FingerprintResult := .ok ("h3") }, 0, false⟩

/-- C3 counterexample: on the execution failing at the last-link symlink
(a failing execution), the previously valid `last` pointer is not left
unchanged — it is gone. -/
theorem C3_counterexample :
    (Build (fun _ => false) ("5") cfgC3 ⟨true, true, true, false⟩ fsC3).1 =
      BuildResult.lastLinkErr ∧
    fsC3.last = some ("old") ∧
    (Build (fun _ => false) ("5") cfgC3 ⟨true, true, true, false⟩ fsC3).2.last =
      none := by
  exact ⟨by decide, rfl, by decide⟩

/-! ### C5 — rebuild determinism -/

/-- C5 (amended): the content hash and the hash-keyed build directory do
not depend on the build timestamp or verbosity, so rebuilding identical
source always reuses both; and two builds of identical source with equal
build timestamps produce identical image-index bytes.  (Byte-identity
does *not* hold across differing timestamps — see the counterexample.) -/
theorem C5_rebuild_determinism (f : Function) (t1 t2 : Nat) (v1 v2 : Bool) :
    buildConfig.hash ⟨f, t1, v1⟩ = buildConfig.hash ⟨f, t2, v2⟩ ∧
    buildConfig.buildDir ⟨f, t1, v1⟩ = buildConfig.buildDir ⟨f, t2, v2⟩ ∧
    (t1 = t2 → containerize ⟨f, t1, v1⟩ = containerize ⟨f, t2, v2⟩) := by
  refine ⟨rfl, rfl, ?_⟩
  intro h
  subst h
  rfl

/-- C5 witness: equal timestamps (and differing verbosity) give identical
containerize output at a concrete function. -/
theorem C5_witness :
    containerize ⟨f0, 7, false⟩ = containerize ⟨f0, 7, true⟩ :=
  (C5_rebuild_determinism f0 7 7 false true).2.2 rfl

set_option maxRecDepth 100000 in
/-- C5 counterexample: the build timestamp is `time.Now()` at each Build;
with timestamps 0 and 1 the hash and directory agree but the index bytes
differ (the timestamp is embedded in every tar header and config), so
"byte-for-byte identical" fails across rebuilds at different times. -/
theorem C5_counterexample :
    buildConfig.hash ⟨f0, 0, false⟩ = buildConfig.hash ⟨f0, 1, false⟩ ∧
    buildConfig.buildDir ⟨f0, 0, false⟩ = buildConfig.buildDir ⟨f0, 1, false⟩ ∧
    containerize ⟨f0, 0, false⟩ ≠ containerize ⟨f0, 1, false⟩ := by
  refine ⟨rfl, rfl, ?_⟩
  decide

/-! ### Characterization of teardown (for C2) -/

theorem bne_comm_str (a b : String) : (a != b) = (b != a) := by
  by_cases h : a = b
  · subst h
    rfl
  · rw [bne_iff_ne.mpr h, bne_iff_ne.mpr (Ne.symm h)]

/-- What the dead-marker sweep over a snapshot `l` does to the pid
entries: an entry survives iff no snapshot entry with the same name is
dead. -/
theorem deadSweep_spec (pe : String → Bool) (l : List (String × String)) :
    ∀ fs : FS,
      deadSweep pe l fs =
        { fs with
          pids := fs.pids.filter (fun p => l.all (fun q => pe q.1 || q.1 != p.1)) } := by
  induction l with
  | nil =>
    intro fs
    simp [deadSweep]
  | cons q l ih =>
    intro fs
    show deadSweep pe l (if pe q.1 then fs else removePid q.1 fs) = _
    rw [ih]
    cases h : pe q.1
    · have hp : (fun (p : String × String) =>
          (l.all fun q2 => pe q2.1 || q2.1 != p.1) && (p.1 != q.1)) =
          (fun (p : String × String) =>
            (q :: l).all fun q2 => pe q2.1 || q2.1 != p.1) := by
        funext p
        simp [h, bne_comm_str q.1 p.1, Bool.and_comm]
      simp only [h, Bool.false_eq_true, if_false, removePid, List.filter_filter, hp]
    · have hp : (fun (p : String × String) =>
          l.all fun q2 => pe q2.1 || q2.1 != p.1) =
          (fun (p : String × String) =>
            (q :: l).all fun q2 => pe q2.1 || q2.1 != p.1) := by
        funext p
        simp [h]
      simp only [h, if_true, hp]

/-- The dead-marker sweep, as called by `teardown` on the current pid
listing itself: exactly the dead entries are dropped (liveness is a
function of the entry's name). -/
theorem deadSweep_self (pe : String → Bool) (fs : FS) :
    deadSweep pe fs.pids fs =
      { fs with pids := fs.pids.filter (fun p => pe p.1) } := by
  rw [deadSweep_spec]
  have hf : fs.pids.filter
      (fun p => fs.pids.all (fun q => pe q.1 || q.1 != p.1)) =
      fs.pids.filter (fun p => pe p.1) := by
    apply List.filter_congr
    intro p hp
    cases hpe : pe p.1
    · have : fs.pids.all (fun q => pe q.1 || q.1 != p.1) = false := by
        cases hall : fs.pids.all (fun q => pe q.1 || q.1 != p.1)
        · rfl
        · exfalso
          have := List.all_eq_true.mp hall p hp
          simp [hpe] at this
      rw [this]
    · have : fs.pids.all (fun q => pe q.1 || q.1 != p.1) = true := by
        rw [List.all_eq_true]
        intro q hq
        cases hq2 : pe q.1
        · have hne : q.1 ≠ p.1 := by
            intro he
            rw [he, hpe] at hq2
            exact absurd hq2 (by simp)
          simp [hne]
        · simp
      rw [this]
  rw [hf]

/-- Whether a directory survives the teardown sweep: it is the `last`
target, or some (still present) marker of a live process links to it. -/
def keepDir (pe : String → Bool) (last0 : Option String)
    (pids0 : List (String × String)) (d : String) : Bool :=
  decide (last0 = some d) || pids0.any (fun p => pe p.1 && p.2 == d)

/-- What the directory sweep does to a duplicate-free snapshot, stated by
induction over the remaining snapshot with `done` already processed:
exactly the directories satisfying `keepDir` survive. -/
theorem dirSweep_spec (pe : String → Bool) (last0 : Option String)
    (pids0 : List (String × String)) :
    ∀ (rem done : List String), (done ++ rem).Nodup →
      dirSweep pe rem
        ⟨pids0, done.filter (keepDir pe last0 pids0) ++ rem, last0⟩ =
        ⟨pids0, (done ++ rem).filter (keepDir pe last0 pids0), last0⟩ := by
  intro rem
  induction rem with
  | nil =>
    intro done _
    simp [dirSweep]
  | cons d rest ih =>
    intro done hnd
    have hnd2 := hnd
    rw [List.nodup_append] at hnd2
    obtain ⟨_, hndrest, hdisj⟩ := hnd2
    have hd_rest : d ∉ rest := (List.nodup_cons.mp hndrest).1
    have hd_done : d ∉ done := fun hin => hdisj hin (by simp)
    have hdm : d ∈ done.filter (keepDir pe last0 pids0) ++ d :: rest := by
      simp
    have hdc : (done.filter (keepDir pe last0 pids0) ++ d :: rest).contains d = true :=
      List.elem_iff.mpr hdm
    have hg1 : isLastLinkTo last0
        (done.filter (keepDir pe last0 pids0) ++ d :: rest) d =
        decide (last0 = some d) := by
      cases last0 with
      | none => simp [isLastLinkTo]
      | some t =>
        by_cases ht : t = d
        · subst ht
          simp [isLastLinkTo, isLinkTo, hdc]
        · simp [isLastLinkTo, isLinkTo, beq_eq_false_iff_ne.mpr ht, ht]
    have hg2 : isActive pe pids0
        (done.filter (keepDir pe last0 pids0) ++ d :: rest) d =
        pids0.any (fun p => pe p.1 && p.2 == d) := by
      unfold isActive
      congr 1
      funext p
      by_cases hx : p.2 = d
      · rw [hx]
        simp [isLinkTo, hdc]
      · simp [isLinkTo, beq_eq_false_iff_ne.mpr hx]
    have hnd3 : ((done ++ [d]) ++ rest).Nodup := by
      rw [List.append_assoc]
      exact hnd
    show dirSweep pe rest
        (if isLastLinkTo last0
            (done.filter (keepDir pe last0 pids0) ++ d :: rest) d then
           ⟨pids0, done.filter (keepDir pe last0 pids0) ++ d :: rest, last0⟩
         else if isActive pe pids0
            (done.filter (keepDir pe last0 pids0) ++ d :: rest) d then
           ⟨pids0, done.filter (keepDir pe last0 pids0) ++ d :: rest, last0⟩
         else removeDir d
           ⟨pids0, done.filter (keepDir pe last0 pids0) ++ d :: rest, last0⟩) =
        ⟨pids0, (done ++ d :: rest).filter (keepDir pe last0 pids0), last0⟩
    rw [hg1, hg2]
    by_cases hl : last0 = some d
    · have hk : keepDir pe last0 pids0 d = true := by
        simp [keepDir, hl]
      have hdirs : done.filter (keepDir pe last0 pids0) ++ d :: rest =
          (done ++ [d]).filter (keepDir pe last0 pids0) ++ rest := by
        rw [List.filter_append]
        simp [hk]
      rw [if_pos (by simp [hl]), hdirs, ih (done ++ [d]) hnd3,
        List.append_assoc]
      rfl
    · by_cases ha : pids0.any (fun p => pe p.1 && p.2 == d) = true
      · have hk : keepDir pe last0 pids0 d = true := by
          simp [keepDir, ha]
        have hdirs : done.filter (keepDir pe last0 pids0) ++ d :: rest =
            (done ++ [d]).filter (keepDir pe last0 pids0) ++ rest := by
          rw [List.filter_append]
          simp [hk]
        rw [if_neg (by simp [hl]), if_pos ha, hdirs, ih (done ++ [d]) hnd3,
          List.append_assoc]
        rfl
      · have ha2 : pids0.any (fun p => pe p.1 && p.2 == d) = false := by
          cases hx : pids0.any (fun p => pe p.1 && p.2 == d)
          · rfl
          · exact absurd hx ha
        have hk : keepDir pe last0 pids0 d = false := by
          simp [keepDir, hl, ha2]
        have hrm : removeDir d
            ⟨pids0, done.filter (keepDir pe last0 pids0) ++ d :: rest, last0⟩ =
            ⟨pids0, (done ++ [d]).filter (keepDir pe last0 pids0) ++ rest, last0⟩ := by
          unfold removeDir
          have h1 : (done.filter (keepDir pe last0 pids0)).filter (fun x => x != d) =
              done.filter (keepDir pe last0 pids0) := by
            rw [List.filter_eq_self]
            intro a hamem
            exact bne_iff_ne.mpr
              (fun he => hd_done (he ▸ (List.mem_filter.mp hamem).1))
          have h2 : (d :: rest).filter (fun x => x != d) = rest := by
            rw [List.filter_cons]
            have : rest.filter (fun x => x != d) = rest := by
              rw [List.filter_eq_self]
              intro a hamem
              exact bne_iff_ne.mpr (fun he => hd_rest (he ▸ hamem))
            simp [this]
          have h3 : (done ++ [d]).filter (keepDir pe last0 pids0) =
              done.filter (keepDir pe last0 pids0) := by
            rw [List.filter_append]
            simp [hk]
          simp only [List.filter_append, h1, h2, h3]
        rw [if_neg (by simp [hl]), if_neg ha, hrm, ih (done ++ [d]) hnd3,
          List.append_assoc]
        rfl

/-- The combined effect of `teardown`: the own marker and dead markers are
dropped from the pid entries, and exactly the directories that are the
`last` target or are referenced by a surviving marker survive. -/
theorem teardown_spec (pe : String → Bool) (pid : String) (fs : FS)
    (hnd : fs.dirs.Nodup) :
    teardown pe pid fs =
      ⟨fs.pids.filter (fun p => pe p.1 && (p.1 != pid)),
       fs.dirs.filter (keepDir pe fs.last
         (fs.pids.filter (fun p => pe p.1 && (p.1 != pid)))),
       fs.last⟩ := by
  have h1 : deadSweep pe (removePid pid fs).pids (removePid pid fs) =
      ⟨fs.pids.filter (fun p => pe p.1 && (p.1 != pid)), fs.dirs, fs.last⟩ := by
    rw [deadSweep_self]
    simp [removePid, List.filter_filter]
  show dirSweep pe
      (deadSweep pe (removePid pid fs).pids (removePid pid fs)).dirs
      (deadSweep pe (removePid pid fs).pids (removePid pid fs)) = _
  rw [h1]
  have h2 := dirSweep_spec pe fs.last
    (fs.pids.filter (fun p => pe p.1 && (p.1 != pid))) fs.dirs []
    (by simpa using hnd)
  simpa using h2

/-! ### C2 — what teardown does, exactly -/

/-- C2 (amended): whenever `setup` succeeds, `Build`'s final state is
`teardown` of the body's result state (the deferred call runs on success,
failure and cancellation alike — but *not* on the setup-failure exits,
where `Build` returns before registering the deferred call); and
`teardown` (i) drops this process's own marker, (ii) drops exactly the
markers of dead processes, and (iii) drops exactly the build directories
that are neither the `last` target nor referenced by a still-present
live-process marker, preserving all others and the `last` link itself. -/
theorem C2_teardown_gc (pe : String → Bool) (pid : String) (fs : FS)
    (hnd : fs.dirs.Nodup) :
    (teardown pe pid fs).last = fs.last ∧
    (∀ q, q ∈ (teardown pe pid fs).pids ↔
      (q ∈ fs.pids ∧ q.1 ≠ pid ∧ pe q.1 = true)) ∧
    (∀ d, d ∈ (teardown pe pid fs).dirs ↔
      (d ∈ fs.dirs ∧ (fs.last = some d ∨
        ∃ q, q ∈ fs.pids ∧ q.1 ≠ pid ∧ pe q.1 = true ∧ q.2 = d))) ∧
    (∀ (c : buildConfig) (steps : BuildSteps) (fs0 fs1 : FS),
      setup pe pid c.hash fs0 = (none, fs1) →
      Build pe pid c steps fs0 =
        ((buildBody c.hash steps fs1).1,
         teardown pe pid (buildBody c.hash steps fs1).2)) := by
  rw [teardown_spec pe pid fs hnd]
  refine ⟨rfl, ?_, ?_, ?_⟩
  · intro q
    rw [List.mem_filter]
    simp [bne_iff_ne]
    tauto
  · intro d
    rw [List.mem_filter]
    simp [keepDir, List.any_eq_true, List.mem_filter, bne_iff_ne]
    tauto
  · intro c steps fs0 fs1 hs
    unfold Build
    rw [hs]

/-- Fixtures for C2: pid 7 is live and building h1; the marker of pid 99
is stale (no such process); pid 5 runs the teardown / the build. -/
def peC2 : String → Bool := fun n => n == "7"

def fsC2 : FS := ⟨[("7", "h1"), ("99", "x")], ["h1"], none⟩

def cfgC2 : buildConfig := ⟨{ f0 with FingerprintResult := .ok ("h1") }, 0, false⟩

/-- C2 witness: at the concrete state, teardown preserves `last` and keeps
exactly the live foreign marker. -/
theorem C2_witness :
    (teardown peC2 ("5") fsC2).last = fsC2.last ∧
    ("7", "h1") ∈ (teardown peC2 ("5") fsC2).pids :=
  ⟨(C2_teardown_gc peC2 ("5") fsC2 (by decide)).1,
   ((C2_teardown_gc peC2 ("5") fsC2 (by decide)).2.1 ("7", "h1")).mpr
     ⟨by decide, by decide, by decide⟩⟩

/-- C2 counterexample: on the BuildInProgress exit path (hash h1 is
actively being built by live pid 7), `Build` returns with the state
exactly as it was — the stale marker of dead pid 99 is still present,
although a run of teardown would have removed it.  So teardown does
*not* run on every exit path of Build: the setup-failure exits skip it. -/
theorem C2_counterexample :
    Build peC2 ("5") cfgC2 stepsAllOk fsC2 = (BuildResult.inProgress, fsC2) ∧
    ("99", "x") ∈ fsC2.pids ∧
    ("99", "x") ∉ (teardown peC2 ("5") fsC2).pids := by
  refine ⟨by decide, by decide, by decide⟩

/-! ### C1 — setup-time mutual exclusion -/

/-- An active hash directory makes `Build` fail immediately with the
BuildInProgress error, mutating nothing. -/
theorem Build_inProgress_of_isActive (pe : String → Bool) (pid : String)
    (c : buildConfig) (steps : BuildSteps) (fs : FS)
    (hA : isActive pe fs.pids fs.dirs c.hash = true) :
    Build pe pid c steps fs = (BuildResult.inProgress, fs) := by
  unfold Build setup
  simp [hA]

/-- C1: if at setup time some live-process marker links to the hash
directory (which therefore exists), `Build` returns the BuildInProgress
`BuildErr` and mutates nothing at all; otherwise (when, as in C1's
operating condition, the current process holds no marker — the collision
case is C10) setup creates the hash directory (idempotently), registers
the pid marker pointing at it, and touches nothing else; consequently a
second concurrent Build for the same hash, arriving after the first's
successful setup while the first's process is live, observes
BuildInProgress and changes nothing. -/
theorem C1_mutual_exclusion (pe : String → Bool) (pid pid2 : String)
    (c : buildConfig) (steps steps2 : BuildSteps) (fs : FS) :
    (isActive pe fs.pids fs.dirs c.hash = true →
      Build pe pid c steps fs = (BuildResult.inProgress, fs)) ∧
    (isActive pe fs.pids fs.dirs c.hash = false →
      fs.pids.all (fun p => p.1 != pid) = true →
      ((setup pe pid c.hash fs).1 = none ∧
       c.hash ∈ (setup pe pid c.hash fs).2.dirs ∧
       (pid, c.hash) ∈ (setup pe pid c.hash fs).2.pids ∧
       (∀ d, d ≠ c.hash →
         (d ∈ (setup pe pid c.hash fs).2.dirs ↔ d ∈ fs.dirs)) ∧
       (setup pe pid c.hash fs).2.last = fs.last ∧
       (pe pid = true →
         Build pe pid2 c steps2 (setup pe pid c.hash fs).2 =
           (BuildResult.inProgress, (setup pe pid c.hash fs).2)))) := by
  constructor
  · intro hA
    exact Build_inProgress_of_isActive pe pid c steps fs hA
  · intro hA hall
    have hnone : fs.pids.any (fun p => p.1 == pid) = false := by
      cases ha : fs.pids.any (fun p => p.1 == pid)
      · rfl
      · exfalso
        obtain ⟨x, hx, hx2⟩ := List.any_eq_true.mp ha
        exact (bne_iff_ne.mp (List.all_eq_true.mp hall x hx))
          (beq_iff_eq.mp hx2)
    have hsetup : setup pe pid c.hash fs =
        (none, ⟨fs.pids ++ [(pid, c.hash)],
                (if fs.dirs.contains c.hash then fs.dirs
                 else fs.dirs ++ [c.hash]), fs.last⟩) := by
      unfold setup
      simp [hA, hnone]
    rw [hsetup]
    refine ⟨rfl, ?_, by simp, ?_, rfl, ?_⟩
    · by_cases hc : c.hash ∈ fs.dirs
      · simp [hc]
      · simp [hc]
    · intro d hd
      by_cases hc : c.hash ∈ fs.dirs
      · simp [hc]
      · simp [hc, hd]
    · intro hpe
      have hmem : c.hash ∈
          (if c.hash ∈ fs.dirs then fs.dirs else fs.dirs ++ [c.hash]) := by
        by_cases hc : c.hash ∈ fs.dirs
        · simp [hc]
        · simp [hc]
      have hact2 : isActive pe (fs.pids ++ [(pid, c.hash)])
          (if fs.dirs.contains c.hash then fs.dirs
           else fs.dirs ++ [c.hash]) c.hash = true := by
        apply List.any_eq_true.mpr
        refine ⟨(pid, c.hash), by simp, ?_⟩
        simp [hpe, isLinkTo, hmem]
      exact Build_inProgress_of_isActive pe pid2 c steps2 _ hact2

/-- Fixtures for the C1 witness, first scenario: live pid 7 already holds
the marker for hash h, which exists. -/
def peC1a : String → Bool := fun n => n == "7"

def fsC1a : FS := ⟨[("7", "h")], ["h"], none⟩

def cfgC1a : buildConfig := ⟨{ f0 with FingerprintResult := .ok ("h") }, 0, false⟩

/-- Fixtures for the C1 witness, second scenario: an empty state; pid 5
(live) runs the first build for hash k, pid 6 the racing second one. -/
def peC1b : String → Bool := fun n => n == "5"

def fsC1b : FS := ⟨[], [], none⟩

def cfgC1b : buildConfig := ⟨{ f0 with FingerprintResult := .ok ("k") }, 0, false⟩

/-- C1 witness: the BuildInProgress return at a concrete active state, a
successful setup at a concrete free state, and the racing second Build
observing BuildInProgress after it. -/
theorem C1_witness :
    Build peC1a ("5") cfgC1a stepsAllOk fsC1a = (BuildResult.inProgress, fsC1a) ∧
    (setup peC1b ("5") cfgC1b.hash fsC1b).1 = none ∧
    Build peC1b ("6") cfgC1b stepsAllOk (setup peC1b ("5") cfgC1b.hash fsC1b).2 =
      (BuildResult.inProgress, (setup peC1b ("5") cfgC1b.hash fsC1b).2) :=
  ⟨(C1_mutual_exclusion peC1a ("5") ("6") cfgC1a stepsAllOk stepsAllOk fsC1a).1
      (by decide),
   ((C1_mutual_exclusion peC1b ("5") ("6") cfgC1b stepsAllOk stepsAllOk fsC1b).2
      (by decide) (by decide)).1,
   ((C1_mutual_exclusion peC1b ("5") ("6") cfgC1b stepsAllOk stepsAllOk fsC1b).2
      (by decide) (by decide)).2.2.2.2.2 rfl⟩

end KnFunc
